import Mathlib

/-!
Shallow embedding of `src/Materials/PBR/pbrSubSurfaceConfiguration.ts`
(class `PBRSubSurfaceConfiguration`) from the Babylon.js PBR material
system, together with proofs about its behaviour.

JavaScript numbers are modelled as `ℚ` (no claim below depends on
floating-point rounding), nullable references as `Option`, and the
mutable `this`/defines/uniform-buffer objects as explicit state passed
and returned.  External collaborator objects (`Scene`, `BaseTexture`,
`MaterialFlags`, the uniform buffer) are modelled as plain records of
exactly the fields this file reads.
-/

/-- `Color3` from `Maths/math`: an RGB colour triple. -/
structure Color3 where
  r : ℚ
  g : ℚ
  b : ℚ
deriving DecidableEq, Repr

/-- `Color3.White()` : (1, 1, 1). -/
def Color3.White : Color3 := ⟨1, 1, 1⟩

/-- The fields of `BaseTexture` (and of render-target textures reached
through the `<any>` casts) that `pbrSubSurfaceConfiguration.ts` reads.
`id` identifies the texture object; matrices are abstracted to
identifiers since the file only passes them through. -/
structure BaseTexture where
  id : Nat
  isReadyOrNotBlocking : Bool
  isCube : Bool
  gammaSpace : Bool
  isRGBD : Bool
  invertZ : Bool
  lodLevelInAlpha : Bool
  isRenderTarget : Bool
  coordinatesIndex : Nat
  level : ℚ
  /-- the `(<any>refractionTexture).depth` property: `none` when absent. -/
  depth : Option ℚ
  sizeWidth : ℚ
  lodGenerationScale : ℚ
  lodGenerationOffset : ℚ
  /-- abstract identifier of `getReflectionTextureMatrix()`. -/
  reflectionTextureMatrix : Nat
  /-- abstract identifier of `getTextureMatrix()`. -/
  textureMatrix : Nat
  /-- whether `getTextureMatrix().isIdentityAs3x2()` holds. -/
  textureMatrixIsIdentityAs3x2 : Bool
  _lodTextureMid : Option Nat
  _lodTextureLow : Option Nat
  _lodTextureHigh : Option Nat
deriving DecidableEq, Repr

/-- The fields of `Scene` the file reads. -/
structure Scene where
  texturesEnabled : Bool
  environmentTexture : Option BaseTexture
deriving DecidableEq, Repr

/-- The global `MaterialFlags` toggles the file reads. -/
structure MaterialFlags where
  ThicknessTextureEnabled : Bool
  RefractionTextureEnabled : Bool
deriving DecidableEq, Repr

/-- `IMaterialSubSurfaceDefines`: the shader-define struct mutated by
`prepareDefines`. -/
structure IMaterialSubSurfaceDefines where
  SUBSURFACE : Bool
  SS_REFRACTION : Bool
  SS_TRANSLUCENCY : Bool
  SS_SCATERRING : Bool
  SS_THICKNESSANDMASK_TEXTURE : Bool
  SS_THICKNESSANDMASK_TEXTUREDIRECTUV : Nat
  SS_REFRACTIONMAP_3D : Bool
  SS_REFRACTIONMAP_OPPOSITEZ : Bool
  SS_LODINREFRACTIONALPHA : Bool
  SS_GAMMAREFRACTION : Bool
  SS_RGBDREFRACTION : Bool
  SS_LINKREFRACTIONTOTRANSPARENCY : Bool
  SS_MASK_FROM_THICKNESS_TEXTURE : Bool
  _areTexturesDirty : Bool
deriving DecidableEq, Repr

/-- The state of `PBRSubSurfaceConfiguration`: its private backing
fields plus the plain public fields, exactly as declared in the class
(underscored names are the private backing stores of the
`expandToProperty` properties). -/
structure PBRSubSurfaceConfiguration where
  _isRefractionEnabled : Bool := false
  _isTranslucencyEnabled : Bool := false
  _isScatteringEnabled : Bool := false
  refractionIntensity : ℚ := 1
  translucencyIntensity : ℚ := 1
  scatteringIntensity : ℚ := 1
  _thicknessTexture : Option BaseTexture := none
  _refractionTexture : Option BaseTexture := none
  _indexOfRefraction : ℚ := 1
  _invertRefractionY : Bool := false
  _linkRefractionWithTransparency : Bool := false
  minimumThickness : ℚ := 0
  maximumThickness : ℚ := 1
  tintColor : Color3 := Color3.White
  tintColorAtDistance : ℚ := 1
  diffusionDistance : Color3 := Color3.White
  _useMaskFromThicknessTexture : Bool := false
deriving DecidableEq, Repr

namespace PBRSubSurfaceConfiguration

/-- The freshly constructed configuration (all initializers as written
in the class body). -/
def fresh : PBRSubSurfaceConfiguration := {}

/-- The public getter `isRefractionEnabled` generated by
`expandToProperty`, reading the `_isRefractionEnabled` backing field. -/
def isRefractionEnabled (c : PBRSubSurfaceConfiguration) : Bool :=
  c._isRefractionEnabled

/-- `_getRefractionTexture(scene)`: the explicit refraction texture when
set, otherwise the scene environment texture when refraction is
enabled, otherwise `null`. -/
def _getRefractionTexture (c : PBRSubSurfaceConfiguration) (scene : Scene) :
    Option BaseTexture :=
  match c._refractionTexture with
  | some t => some t
  | none =>
    if c._isRefractionEnabled then
      scene.environmentTexture
    else
      none

/-- `get disableAlphaBlending()`: reads the public `isRefractionEnabled`
property and the private `_linkRefractionWithTransparency` field. -/
def disableAlphaBlending (c : PBRSubSurfaceConfiguration) : Bool :=
  c.isRefractionEnabled && c._linkRefractionWithTransparency

/-- `isReadyForSubMesh(defines, scene)`: under the dirty/texturesEnabled
gates, returns `false` as soon as an enabled, present texture (thickness,
then the resolved refraction texture) is not ready; `true` otherwise. -/
def isReadyForSubMesh (c : PBRSubSurfaceConfiguration) (flags : MaterialFlags)
    (defines : IMaterialSubSurfaceDefines) (scene : Scene) : Bool :=
  if defines._areTexturesDirty then
    if scene.texturesEnabled then
      if (match c._thicknessTexture with
          | some t => flags.ThicknessTextureEnabled && !t.isReadyOrNotBlocking
          | none => false) then
        false
      else
        match c._getRefractionTexture scene with
        | some rt =>
          if flags.RefractionTextureEnabled && !rt.isReadyOrNotBlocking then
            false
          else
            true
        | none => true
    else
      true
  else
    true

end PBRSubSurfaceConfiguration

/-- Modelled from the spec: `MaterialHelper.PrepareDefinesForMergedUV`
lives outside this file (`Materials/materialHelper`).  It marks the
named texture define (here always `SS_THICKNESSANDMASK_TEXTURE`) as
active and derives its `DIRECTUV` companion from the texture's
coordinates index when the texture matrix is a plain 3x2 identity
(direct UV usable), `0` otherwise. -/
def PrepareDefinesForMergedUV (t : BaseTexture)
    (d : IMaterialSubSurfaceDefines) : IMaterialSubSurfaceDefines :=
  { d with
    SS_THICKNESSANDMASK_TEXTURE := true
    SS_THICKNESSANDMASK_TEXTUREDIRECTUV :=
      if t.textureMatrixIsIdentityAs3x2 then t.coordinatesIndex + 1 else 0 }

namespace PBRSubSurfaceConfiguration

/-- `prepareDefines(defines, scene)`: rewrites the define struct from the
configuration and scene, when `_areTexturesDirty` holds.  The source
mutates `defines` in place and never assigns to `this`; here the updated
defines and the (unchanged) configuration are returned explicitly. -/
def prepareDefines (c : PBRSubSurfaceConfiguration) (flags : MaterialFlags)
    (defines : IMaterialSubSurfaceDefines) (scene : Scene) :
    IMaterialSubSurfaceDefines × PBRSubSurfaceConfiguration :=
  if defines._areTexturesDirty then
    let d := { defines with
      SUBSURFACE := false
      SS_TRANSLUCENCY := c._isTranslucencyEnabled
      SS_SCATERRING := c._isScatteringEnabled
      SS_THICKNESSANDMASK_TEXTURE := false
      SS_MASK_FROM_THICKNESS_TEXTURE := false
      SS_REFRACTION := false
      SS_REFRACTIONMAP_3D := false
      SS_GAMMAREFRACTION := false
      SS_RGBDREFRACTION := false
      SS_REFRACTIONMAP_OPPOSITEZ := false
      SS_LODINREFRACTIONALPHA := false
      SS_LINKREFRACTIONTOTRANSPARENCY := false }
    let d :=
      if c._isRefractionEnabled || c._isTranslucencyEnabled
          || c._isScatteringEnabled then
        let d := { d with SUBSURFACE := true }
        let d :=
          if d._areTexturesDirty then
            if scene.texturesEnabled then
              match c._thicknessTexture with
              | some t =>
                if flags.ThicknessTextureEnabled then
                  PrepareDefinesForMergedUV t d
                else
                  d
              | none => d
            else
              d
          else
            d
        { d with SS_MASK_FROM_THICKNESS_TEXTURE := c._useMaskFromThicknessTexture }
      else
        d
    let d :=
      if c._isRefractionEnabled then
        if scene.texturesEnabled then
          match c._getRefractionTexture scene with
          | some rt =>
            if flags.RefractionTextureEnabled then
              { d with
                SS_REFRACTION := true
                SS_REFRACTIONMAP_3D := rt.isCube
                SS_GAMMAREFRACTION := rt.gammaSpace
                SS_RGBDREFRACTION := rt.isRGBD
                SS_REFRACTIONMAP_OPPOSITEZ := rt.invertZ
                SS_LODINREFRACTIONALPHA := rt.lodLevelInAlpha
                SS_LINKREFRACTIONTOTRANSPARENCY := c._linkRefractionWithTransparency }
            else
              d
          | none => d
        else
          d
      else
        d
    (d, c)
  else
    (defines, c)

end PBRSubSurfaceConfiguration

/-- A value pushed into the uniform buffer by one `update*` call. -/
inductive UniformValue where
  | float2 : ℚ → ℚ → UniformValue
  | float3 : ℚ → ℚ → ℚ → UniformValue
  | float4 : ℚ → ℚ → ℚ → ℚ → UniformValue
  | color3 : Color3 → UniformValue
  | matrix : Nat → UniformValue
deriving DecidableEq, Repr

/-- One observable effect of `bindForSubMesh`/`unbind` on the uniform
buffer or effect: a named uniform-value update, or a texture-sampler
binding (`none` binds `null`, clearing the sampler). -/
inductive BindEvent where
  | updateUniform : String → UniformValue → BindEvent
  | setTexture : String → Option Nat → BindEvent
deriving DecidableEq, Repr

/-- Discriminates the uniform-value updates among bind events. -/
def BindEvent.isUniformUpdate : BindEvent → Bool
  | .updateUniform _ _ => true
  | .setTexture _ _ => false

/-- The two fields of `UniformBuffer` read by `bindForSubMesh`. -/
structure UniformBufferState where
  useUbo : Bool
  isSync : Bool
deriving DecidableEq, Repr

/-- Modelled from the spec: `MaterialHelper.BindTextureMatrix` lives
outside this file; it uploads the texture's transform matrix under the
`<key>Matrix` uniform (here `key = "thickness"`). -/
def BindTextureMatrix (t : BaseTexture) (key : String) : BindEvent :=
  .updateUniform (key ++ "Matrix") (.matrix t.textureMatrix)

namespace PBRSubSurfaceConfiguration

/-- `bindForSubMesh(uniformBuffer, scene, engine, isFrozen,
lodBasedMicrosurface)`: the sequence of uniform updates and sampler
bindings the call issues, in source order.  The value block runs only
when `!useUbo || !isFrozen || !isSync`; sampler bindings run whenever
`scene.texturesEnabled` (the `engine` parameter is unused by the
source). -/
def bindForSubMesh (c : PBRSubSurfaceConfiguration) (flags : MaterialFlags)
    (uniformBuffer : UniformBufferState) (scene : Scene) (isFrozen : Bool)
    (lodBasedMicrosurface : Bool) : List BindEvent :=
  let refractionTexture := c._getRefractionTexture scene
  let valueEvents : List BindEvent :=
    if !uniformBuffer.useUbo || !isFrozen || !uniformBuffer.isSync then
      (match c._thicknessTexture with
        | some t =>
          if flags.ThicknessTextureEnabled then
            [.updateUniform "vThicknessInfos"
               (.float2 (t.coordinatesIndex : ℚ) t.level),
             BindTextureMatrix t "thickness"]
          else []
        | none => [])
      ++ [.updateUniform "vThicknessParam"
            (.float2 c.minimumThickness (c.maximumThickness - c.minimumThickness))]
      ++ (match refractionTexture with
        | some rt =>
          if flags.RefractionTextureEnabled then
            -- JS: depth defaults to 1.0; overwritten by the texture's own
            -- `depth` when the texture is not a cube and the property is
            -- truthy (present and nonzero).
            let depth : ℚ :=
              if !rt.isCube then
                match rt.depth with
                | some dv => if dv = 0 then 1 else dv
                | none => 1
              else 1
            [.updateUniform "refractionMatrix" (.matrix rt.reflectionTextureMatrix),
             .updateUniform "vRefractionInfos"
               (.float4 rt.level (1 / c._indexOfRefraction) depth
                  (if c._invertRefractionY then -1 else 1)),
             .updateUniform "vRefractionMicrosurfaceInfos"
               (.float3 rt.sizeWidth rt.lodGenerationScale rt.lodGenerationOffset)]
          else []
        | none => [])
      ++ [.updateUniform "vDiffusionDistance" (.color3 c.diffusionDistance),
          .updateUniform "vTintColor"
            (.float4 c.tintColor.r c.tintColor.g c.tintColor.b c.tintColorAtDistance),
          .updateUniform "vSubSurfaceIntensity"
            (.float3 c.refractionIntensity c.translucencyIntensity
               c.scatteringIntensity)]
    else
      []
  let textureEvents : List BindEvent :=
    if scene.texturesEnabled then
      (match c._thicknessTexture with
        | some t =>
          if flags.ThicknessTextureEnabled then
            [.setTexture "thicknessSampler" (some t.id)]
          else []
        | none => [])
      ++ (match refractionTexture with
        | some rt =>
          if flags.RefractionTextureEnabled then
            if lodBasedMicrosurface then
              [.setTexture "refractionSampler" (some rt.id)]
            else
              [.setTexture "refractionSampler"
                 (some (rt._lodTextureMid.getD rt.id)),
               .setTexture "refractionSamplerLow"
                 (some (rt._lodTextureLow.getD rt.id)),
               .setTexture "refractionSamplerHigh"
                 (some (rt._lodTextureHigh.getD rt.id))]
          else []
        | none => [])
    else
      []
  valueEvents ++ textureEvents

/-- `unbind(activeEffect)`: returns whether anything was unbound
together with the bindings changed on the active effect. -/
def unbind (c : PBRSubSurfaceConfiguration) : Bool × List BindEvent :=
  match c._refractionTexture with
  | some t =>
    if t.isRenderTarget then
      (true, [.setTexture "refractionSampler" none])
    else
      (false, [])
  | none => (false, [])

/-- `dispose(forceDisposeTextures)`: the configuration afterwards (the
source never reassigns its fields) and the ids of the textures whose
`dispose()` was invoked. -/
def dispose (c : PBRSubSurfaceConfiguration) (forceDisposeTextures : Bool) :
    PBRSubSurfaceConfiguration × List Nat :=
  if forceDisposeTextures then
    (c,
      (match c._thicknessTexture with
        | some t => [t.id]
        | none => [])
      ++ (match c._refractionTexture with
        | some t => [t.id]
        | none => []))
  else
    (c, [])

/-!
Mutation of the public fields.  Each model returns the configuration
afterwards together with the number of `_markAllSubMeshesAsTexturesDirty`
invocations the mutation caused.  The class declares two kinds of public
fields:

* properties decorated with `@expandToProperty("_markAllSubMeshesAsTexturesDirty")`,
  whose generated setter writes the underscored backing field and calls
  the dirty callback (the decorator itself lives in `Misc/decorators`,
  outside this file; modelled from the spec: "mutate-via-setters (each
  mutation triggers a dirty callback to the owning material)");
* plain public fields with no decorator-generated setter, where a JS
  assignment stores the value with no interception whatsoever.
-/

/-- `expandToProperty` setter for `isRefractionEnabled`. -/
def set_isRefractionEnabled (c : PBRSubSurfaceConfiguration) (v : Bool) :
    PBRSubSurfaceConfiguration × Nat :=
  ({ c with _isRefractionEnabled := v }, 1)

/-- `expandToProperty` setter for `isTranslucencyEnabled`. -/
def set_isTranslucencyEnabled (c : PBRSubSurfaceConfiguration) (v : Bool) :
    PBRSubSurfaceConfiguration × Nat :=
  ({ c with _isTranslucencyEnabled := v }, 1)

/-- `expandToProperty` setter for `thicknessTexture`. -/
def set_thicknessTexture (c : PBRSubSurfaceConfiguration)
    (v : Option BaseTexture) : PBRSubSurfaceConfiguration × Nat :=
  ({ c with _thicknessTexture := v }, 1)

/-- `expandToProperty` setter for `refractionTexture`. -/
def set_refractionTexture (c : PBRSubSurfaceConfiguration)
    (v : Option BaseTexture) : PBRSubSurfaceConfiguration × Nat :=
  ({ c with _refractionTexture := v }, 1)

/-- `expandToProperty` setter for `indexOfRefraction`. -/
def set_indexOfRefraction (c : PBRSubSurfaceConfiguration) (v : ℚ) :
    PBRSubSurfaceConfiguration × Nat :=
  ({ c with _indexOfRefraction := v }, 1)

/-- `expandToProperty` setter for `invertRefractionY`. -/
def set_invertRefractionY (c : PBRSubSurfaceConfiguration) (v : Bool) :
    PBRSubSurfaceConfiguration × Nat :=
  ({ c with _invertRefractionY := v }, 1)

/-- `expandToProperty` setter for `linkRefractionWithTransparency`. -/
def set_linkRefractionWithTransparency (c : PBRSubSurfaceConfiguration)
    (v : Bool) : PBRSubSurfaceConfiguration × Nat :=
  ({ c with _linkRefractionWithTransparency := v }, 1)

/-- `expandToProperty` setter for `useMaskFromThicknessTexture`. -/
def set_useMaskFromThicknessTexture (c : PBRSubSurfaceConfiguration)
    (v : Bool) : PBRSubSurfaceConfiguration × Nat :=
  ({ c with _useMaskFromThicknessTexture := v }, 1)

/-- Plain assignment to the undecorated public field `refractionIntensity`. -/
def set_refractionIntensity (c : PBRSubSurfaceConfiguration) (v : ℚ) :
    PBRSubSurfaceConfiguration × Nat :=
  ({ c with refractionIntensity := v }, 0)

/-- Plain assignment to the undecorated public field `translucencyIntensity`. -/
def set_translucencyIntensity (c : PBRSubSurfaceConfiguration) (v : ℚ) :
    PBRSubSurfaceConfiguration × Nat :=
  ({ c with translucencyIntensity := v }, 0)

/-- Plain assignment to the undecorated public field `scatteringIntensity`. -/
def set_scatteringIntensity (c : PBRSubSurfaceConfiguration) (v : ℚ) :
    PBRSubSurfaceConfiguration × Nat :=
  ({ c with scatteringIntensity := v }, 0)

/-- Plain assignment to the undecorated public field `minimumThickness`. -/
def set_minimumThickness (c : PBRSubSurfaceConfiguration) (v : ℚ) :
    PBRSubSurfaceConfiguration × Nat :=
  ({ c with minimumThickness := v }, 0)

/-- Plain assignment to the undecorated public field `maximumThickness`. -/
def set_maximumThickness (c : PBRSubSurfaceConfiguration) (v : ℚ) :
    PBRSubSurfaceConfiguration × Nat :=
  ({ c with maximumThickness := v }, 0)

/-- Plain assignment to the undecorated public field `tintColor`. -/
def set_tintColor (c : PBRSubSurfaceConfiguration) (v : Color3) :
    PBRSubSurfaceConfiguration × Nat :=
  ({ c with tintColor := v }, 0)

/-- Plain assignment to the undecorated public field `tintColorAtDistance`. -/
def set_tintColorAtDistance (c : PBRSubSurfaceConfiguration) (v : ℚ) :
    PBRSubSurfaceConfiguration × Nat :=
  ({ c with tintColorAtDistance := v }, 0)

/-- Plain assignment to the undecorated public field `diffusionDistance`. -/
def set_diffusionDistance (c : PBRSubSurfaceConfiguration) (v : Color3) :
    PBRSubSurfaceConfiguration × Nat :=
  ({ c with diffusionDistance := v }, 0)

end PBRSubSurfaceConfiguration

/-- The plain object produced by `serialize()`: one slot per field of
`PBRSubSurfaceConfiguration` carrying a serialization decorator
(`@serialize`, `@serializeAsTexture`, `@serializeAsColor3`). -/
structure SerializedSubSurface where
  isRefractionEnabled : Bool
  isTranslucencyEnabled : Bool
  isScatteringEnabled : Bool
  refractionIntensity : ℚ
  translucencyIntensity : ℚ
  scatteringIntensity : ℚ
  thicknessTexture : Option BaseTexture
  refractionTexture : Option BaseTexture
  indexOfRefraction : ℚ
  invertRefractionY : Bool
  linkRefractionWithTransparency : Bool
  minimumThickness : ℚ
  maximumThickness : ℚ
  tintColor : Color3
  tintColorAtDistance : ℚ
  diffusionDistance : Color3
  useMaskFromThicknessTexture : Bool
deriving DecidableEq, Repr

namespace PBRSubSurfaceConfiguration

/-- Modelled from the spec: `SerializationHelper.Serialize`
(`Misc/decorators`) is outside this file; the spec describes it as a
"generic reflection-based clone/serialize/parse" that records every
decorated field.  `serialize()` therefore reads each decorated field of
the configuration into the plain object. -/
def serialize (c : PBRSubSurfaceConfiguration) : SerializedSubSurface where
  isRefractionEnabled := c._isRefractionEnabled
  isTranslucencyEnabled := c._isTranslucencyEnabled
  isScatteringEnabled := c._isScatteringEnabled
  refractionIntensity := c.refractionIntensity
  translucencyIntensity := c.translucencyIntensity
  scatteringIntensity := c.scatteringIntensity
  thicknessTexture := c._thicknessTexture
  refractionTexture := c._refractionTexture
  indexOfRefraction := c._indexOfRefraction
  invertRefractionY := c._invertRefractionY
  linkRefractionWithTransparency := c._linkRefractionWithTransparency
  minimumThickness := c.minimumThickness
  maximumThickness := c.maximumThickness
  tintColor := c.tintColor
  tintColorAtDistance := c.tintColorAtDistance
  diffusionDistance := c.diffusionDistance
  useMaskFromThicknessTexture := c._useMaskFromThicknessTexture

/-- Modelled from the spec: `SerializationHelper.Parse`
(`Misc/decorators`) is outside this file; per the spec's
"serialize/parse round-trip equality of all fields", `parse(source)`
writes every decorated field of the receiver from the plain object. -/
def parse (c : PBRSubSurfaceConfiguration) (source : SerializedSubSurface) :
    PBRSubSurfaceConfiguration :=
  { c with
    _isRefractionEnabled := source.isRefractionEnabled
    _isTranslucencyEnabled := source.isTranslucencyEnabled
    _isScatteringEnabled := source.isScatteringEnabled
    refractionIntensity := source.refractionIntensity
    translucencyIntensity := source.translucencyIntensity
    scatteringIntensity := source.scatteringIntensity
    _thicknessTexture := source.thicknessTexture
    _refractionTexture := source.refractionTexture
    _indexOfRefraction := source.indexOfRefraction
    _invertRefractionY := source.invertRefractionY
    _linkRefractionWithTransparency := source.linkRefractionWithTransparency
    minimumThickness := source.minimumThickness
    maximumThickness := source.maximumThickness
    tintColor := source.tintColor
    tintColorAtDistance := source.tintColorAtDistance
    diffusionDistance := source.diffusionDistance
    _useMaskFromThicknessTexture := source.useMaskFromThicknessTexture }

end PBRSubSurfaceConfiguration

/-! Concrete sample objects, used to exercise the theorems below on
explicit inputs. -/

/-- A ready 2D texture. -/
def texReady : BaseTexture where
  id := 0
  isReadyOrNotBlocking := true
  isCube := false
  gammaSpace := false
  isRGBD := false
  invertZ := false
  lodLevelInAlpha := false
  isRenderTarget := false
  coordinatesIndex := 0
  level := 1
  depth := none
  sizeWidth := 256
  lodGenerationScale := 1
  lodGenerationOffset := 0
  reflectionTextureMatrix := 7
  textureMatrix := 3
  textureMatrixIsIdentityAs3x2 := true
  _lodTextureMid := none
  _lodTextureLow := none
  _lodTextureHigh := none

/-- A ready render-target texture. -/
def texRenderTarget : BaseTexture :=
  { texReady with id := 1, isRenderTarget := true }

/-- A texture that is not yet ready. -/
def texNotReady : BaseTexture :=
  { texReady with id := 2, isReadyOrNotBlocking := false }

/-- A scene with textures enabled and an environment texture. -/
def sceneEnv : Scene where
  texturesEnabled := true
  environmentTexture := some texReady

/-- Both global material-flag toggles on. -/
def flagsOn : MaterialFlags where
  ThicknessTextureEnabled := true
  RefractionTextureEnabled := true

/-- A configuration with refraction enabled and both textures set. -/
def cfgBoth : PBRSubSurfaceConfiguration :=
  { PBRSubSurfaceConfiguration.fresh with
    _isRefractionEnabled := true
    _thicknessTexture := some texReady
    _refractionTexture := some texRenderTarget }

/-- A configuration with refraction enabled and no explicit textures. -/
def cfgRefrOnly : PBRSubSurfaceConfiguration :=
  { PBRSubSurfaceConfiguration.fresh with _isRefractionEnabled := true }

/-- A uniform buffer in UBO mode that is already in sync. -/
def ubFrozenSync : UniformBufferState where
  useUbo := true
  isSync := true

/-- A dirty define struct (everything reset, `_areTexturesDirty` on). -/
def definesDirty : IMaterialSubSurfaceDefines where
  SUBSURFACE := false
  SS_REFRACTION := false
  SS_TRANSLUCENCY := false
  SS_SCATERRING := false
  SS_THICKNESSANDMASK_TEXTURE := false
  SS_THICKNESSANDMASK_TEXTUREDIRECTUV := 0
  SS_REFRACTIONMAP_3D := false
  SS_REFRACTIONMAP_OPPOSITEZ := false
  SS_LODINREFRACTIONALPHA := false
  SS_GAMMAREFRACTION := false
  SS_RGBDREFRACTION := false
  SS_LINKREFRACTIONTOTRANSPARENCY := false
  SS_MASK_FROM_THICKNESS_TEXTURE := false
  _areTexturesDirty := true

/-- C10: `disableAlphaBlending` holds exactly when refraction is enabled
and `linkRefractionWithTransparency` is set, for every configuration
state. -/
theorem disableAlphaBlending_iff (c : PBRSubSurfaceConfiguration) :
    c.disableAlphaBlending = true ↔
      (c.isRefractionEnabled = true ∧ c._linkRefractionWithTransparency = true) := by
  simp [PBRSubSurfaceConfiguration.disableAlphaBlending]

/-- C2: `_getRefractionTexture` returns the explicitly set refraction
texture when it is non-null; when it is null it returns the scene's
environment texture exactly when refraction is enabled, and null
otherwise. -/
theorem getRefractionTexture_fallback (c : PBRSubSurfaceConfiguration)
    (scene : Scene) :
    (∀ t, c._refractionTexture = some t → c._getRefractionTexture scene = some t) ∧
    (c._refractionTexture = none →
      c._getRefractionTexture scene =
        if c._isRefractionEnabled then scene.environmentTexture else none) := by
  constructor
  · intro t ht
    simp [PBRSubSurfaceConfiguration._getRefractionTexture, ht]
  · intro hn
    simp [PBRSubSurfaceConfiguration._getRefractionTexture, hn]

/-- Witness for C2: with no explicit refraction texture and refraction
enabled, the environment texture is returned. -/
theorem getRefractionTexture_fallback_witness :
    cfgRefrOnly._getRefractionTexture sceneEnv = some texReady :=
  (getRefractionTexture_fallback cfgRefrOnly sceneEnv).2 rfl

/-- C9: `unbind` returns true and clears the `refractionSampler` binding
exactly when the explicitly set refraction texture is a render target;
otherwise it returns false and changes no binding. -/
theorem unbind_iff (c : PBRSubSurfaceConfiguration) :
    (c.unbind.1 = true ↔
      ∃ t, c._refractionTexture = some t ∧ t.isRenderTarget = true) ∧
    c.unbind.2 =
      (if c.unbind.1 then [BindEvent.setTexture "refractionSampler" none] else []) := by
  unfold PBRSubSurfaceConfiguration.unbind
  cases h : c._refractionTexture with
  | none => simp
  | some t =>
    cases hr : t.isRenderTarget <;> simp [hr]

/-- C8: `dispose` calls `dispose()` on each present texture exactly when
`forceDisposeTextures` is true, and never reassigns the configuration's
texture references. -/
theorem dispose_textures_iff_forced (c : PBRSubSurfaceConfiguration)
    (force : Bool) :
    (c.dispose force).1 = c ∧
    (∀ t, c._thicknessTexture = some t →
      (t.id ∈ (c.dispose force).2 ↔ force = true)) ∧
    (∀ t, c._refractionTexture = some t →
      (t.id ∈ (c.dispose force).2 ↔ force = true)) ∧
    (force = false → (c.dispose force).2 = []) := by
  unfold PBRSubSurfaceConfiguration.dispose
  cases force with
  | false => simp
  | true =>
    refine ⟨rfl, ?_, ?_, by simp⟩
    · intro t ht
      simp [ht]
    · intro t ht
      cases hth : c._thicknessTexture <;> simp [ht, hth]

/-- Witness for C8: disposing `cfgBoth` with force on disposes both its
textures; with force off it disposes nothing. -/
theorem dispose_textures_iff_forced_witness :
    texReady.id ∈ (cfgBoth.dispose true).2 ∧
    (cfgBoth.dispose false).2 = [] :=
  ⟨((dispose_textures_iff_forced cfgBoth true).2.1 texReady rfl).mpr rfl,
   (dispose_textures_iff_forced cfgBoth false).2.2.2 rfl⟩

/-- C3: serializing a configuration and parsing the result into a fresh
instance restores every serializable field (enable flags, intensities,
texture references, optical, thickness and colour parameters, and the
thickness-mask flag). -/
theorem serialize_parse_roundtrip (c : PBRSubSurfaceConfiguration) :
    (PBRSubSurfaceConfiguration.fresh.parse c.serialize)._isRefractionEnabled
        = c._isRefractionEnabled ∧
    (PBRSubSurfaceConfiguration.fresh.parse c.serialize)._isTranslucencyEnabled
        = c._isTranslucencyEnabled ∧
    (PBRSubSurfaceConfiguration.fresh.parse c.serialize)._isScatteringEnabled
        = c._isScatteringEnabled ∧
    (PBRSubSurfaceConfiguration.fresh.parse c.serialize).refractionIntensity
        = c.refractionIntensity ∧
    (PBRSubSurfaceConfiguration.fresh.parse c.serialize).translucencyIntensity
        = c.translucencyIntensity ∧
    (PBRSubSurfaceConfiguration.fresh.parse c.serialize).scatteringIntensity
        = c.scatteringIntensity ∧
    (PBRSubSurfaceConfiguration.fresh.parse c.serialize)._thicknessTexture
        = c._thicknessTexture ∧
    (PBRSubSurfaceConfiguration.fresh.parse c.serialize)._refractionTexture
        = c._refractionTexture ∧
    (PBRSubSurfaceConfiguration.fresh.parse c.serialize)._indexOfRefraction
        = c._indexOfRefraction ∧
    (PBRSubSurfaceConfiguration.fresh.parse c.serialize)._invertRefractionY
        = c._invertRefractionY ∧
    (PBRSubSurfaceConfiguration.fresh.parse c.serialize)._linkRefractionWithTransparency
        = c._linkRefractionWithTransparency ∧
    (PBRSubSurfaceConfiguration.fresh.parse c.serialize).minimumThickness
        = c.minimumThickness ∧
    (PBRSubSurfaceConfiguration.fresh.parse c.serialize).maximumThickness
        = c.maximumThickness ∧
    (PBRSubSurfaceConfiguration.fresh.parse c.serialize).tintColor
        = c.tintColor ∧
    (PBRSubSurfaceConfiguration.fresh.parse c.serialize).tintColorAtDistance
        = c.tintColorAtDistance ∧
    (PBRSubSurfaceConfiguration.fresh.parse c.serialize).diffusionDistance
        = c.diffusionDistance ∧
    (PBRSubSurfaceConfiguration.fresh.parse c.serialize)._useMaskFromThicknessTexture
        = c._useMaskFromThicknessTexture :=
  ⟨rfl, rfl, rfl, rfl, rfl, rfl, rfl, rfl, rfl, rfl, rfl, rfl, rfl, rfl, rfl,
   rfl, rfl⟩

/-- C4 counterexample: assigning `refractionIntensity` (a plain
`@serialize()` field with no `expandToProperty` decorator) stores the
value but triggers zero dirty-callback invocations, not exactly one. -/
theorem set_refractionIntensity_no_callback :
    (PBRSubSurfaceConfiguration.set_refractionIntensity
        PBRSubSurfaceConfiguration.fresh 2).2 ≠ 1 ∧
    (PBRSubSurfaceConfiguration.set_refractionIntensity
        PBRSubSurfaceConfiguration.fresh 2).1.refractionIntensity = 2 := by
  constructor
  · simp [PBRSubSurfaceConfiguration.set_refractionIntensity]
  · rfl

/-- C4 (amended): mutations through the `expandToProperty`-generated
setters (`isRefractionEnabled`, `isTranslucencyEnabled`,
`thicknessTexture`, `refractionTexture`, `indexOfRefraction`,
`invertRefractionY`, `linkRefractionWithTransparency`,
`useMaskFromThicknessTexture`) store the value and trigger exactly one
dirty-callback invocation, while assignments to the undecorated public
fields (`refractionIntensity`, `translucencyIntensity`,
`scatteringIntensity`, `minimumThickness`, `maximumThickness`,
`tintColor`, `tintColorAtDistance`, `diffusionDistance`) store the value
and trigger none. -/
theorem setter_dirty_callback_counts (c : PBRSubSurfaceConfiguration)
    (b : Bool) (q : ℚ) (t : Option BaseTexture) (col : Color3) :
    ((c.set_isRefractionEnabled b).2 = 1 ∧
      (c.set_isRefractionEnabled b).1._isRefractionEnabled = b) ∧
    ((c.set_isTranslucencyEnabled b).2 = 1 ∧
      (c.set_isTranslucencyEnabled b).1._isTranslucencyEnabled = b) ∧
    ((c.set_thicknessTexture t).2 = 1 ∧
      (c.set_thicknessTexture t).1._thicknessTexture = t) ∧
    ((c.set_refractionTexture t).2 = 1 ∧
      (c.set_refractionTexture t).1._refractionTexture = t) ∧
    ((c.set_indexOfRefraction q).2 = 1 ∧
      (c.set_indexOfRefraction q).1._indexOfRefraction = q) ∧
    ((c.set_invertRefractionY b).2 = 1 ∧
      (c.set_invertRefractionY b).1._invertRefractionY = b) ∧
    ((c.set_linkRefractionWithTransparency b).2 = 1 ∧
      (c.set_linkRefractionWithTransparency b).1._linkRefractionWithTransparency = b) ∧
    ((c.set_useMaskFromThicknessTexture b).2 = 1 ∧
      (c.set_useMaskFromThicknessTexture b).1._useMaskFromThicknessTexture = b) ∧
    ((c.set_refractionIntensity q).2 = 0 ∧
      (c.set_refractionIntensity q).1.refractionIntensity = q) ∧
    ((c.set_translucencyIntensity q).2 = 0 ∧
      (c.set_translucencyIntensity q).1.translucencyIntensity = q) ∧
    ((c.set_scatteringIntensity q).2 = 0 ∧
      (c.set_scatteringIntensity q).1.scatteringIntensity = q) ∧
    ((c.set_minimumThickness q).2 = 0 ∧
      (c.set_minimumThickness q).1.minimumThickness = q) ∧
    ((c.set_maximumThickness q).2 = 0 ∧
      (c.set_maximumThickness q).1.maximumThickness = q) ∧
    ((c.set_tintColor col).2 = 0 ∧
      (c.set_tintColor col).1.tintColor = col) ∧
    ((c.set_tintColorAtDistance q).2 = 0 ∧
      (c.set_tintColorAtDistance q).1.tintColorAtDistance = q) ∧
    ((c.set_diffusionDistance col).2 = 0 ∧
      (c.set_diffusionDistance col).1.diffusionDistance = col) :=
  ⟨⟨rfl, rfl⟩, ⟨rfl, rfl⟩, ⟨rfl, rfl⟩, ⟨rfl, rfl⟩, ⟨rfl, rfl⟩, ⟨rfl, rfl⟩,
   ⟨rfl, rfl⟩, ⟨rfl, rfl⟩, ⟨rfl, rfl⟩, ⟨rfl, rfl⟩, ⟨rfl, rfl⟩, ⟨rfl, rfl⟩,
   ⟨rfl, rfl⟩, ⟨rfl, rfl⟩, ⟨rfl, rfl⟩, ⟨rfl, rfl⟩⟩

/-- C6: `prepareDefines` is deterministic — equal configurations, flags,
defines and scenes give equal results — and never mutates the
configuration it runs on. -/
theorem prepareDefines_deterministic_pure
    (c₁ c₂ : PBRSubSurfaceConfiguration) (f₁ f₂ : MaterialFlags)
    (d₁ d₂ : IMaterialSubSurfaceDefines) (s₁ s₂ : Scene)
    (hc : c₁ = c₂) (hf : f₁ = f₂) (hd : d₁ = d₂) (hs : s₁ = s₂) :
    c₁.prepareDefines f₁ d₁ s₁ = c₂.prepareDefines f₂ d₂ s₂ ∧
    (c₁.prepareDefines f₁ d₁ s₁).2 = c₁ := by
  subst hc hf hd hs
  refine ⟨rfl, ?_⟩
  unfold PBRSubSurfaceConfiguration.prepareDefines
  split <;> rfl

/-- Witness for C6: two runs on the dirty defines with `cfgBoth` agree,
and the configuration is untouched. -/
theorem prepareDefines_deterministic_pure_witness :
    cfgBoth.prepareDefines flagsOn definesDirty sceneEnv
      = cfgBoth.prepareDefines flagsOn definesDirty sceneEnv ∧
    (cfgBoth.prepareDefines flagsOn definesDirty sceneEnv).2 = cfgBoth :=
  prepareDefines_deterministic_pure cfgBoth cfgBoth flagsOn flagsOn
    definesDirty definesDirty sceneEnv sceneEnv rfl rfl rfl rfl

/-- C1: when the defines are textures-dirty, `prepareDefines` sets
`SUBSURFACE` exactly when at least one of refraction, translucency and
scattering is enabled, and copies the translucency and scattering
enable flags into `SS_TRANSLUCENCY` and `SS_SCATERRING`. -/
theorem prepareDefines_subsurface_flags (c : PBRSubSurfaceConfiguration)
    (flags : MaterialFlags) (defines : IMaterialSubSurfaceDefines)
    (scene : Scene) (h : defines._areTexturesDirty = true) :
    (c.prepareDefines flags defines scene).1.SUBSURFACE
        = (c._isRefractionEnabled || c._isTranslucencyEnabled
            || c._isScatteringEnabled) ∧
    (c.prepareDefines flags defines scene).1.SS_TRANSLUCENCY
        = c._isTranslucencyEnabled ∧
    (c.prepareDefines flags defines scene).1.SS_SCATERRING
        = c._isScatteringEnabled := by
  cases hR : c._isRefractionEnabled <;>
  cases hT : c._isTranslucencyEnabled <;>
  cases hS : c._isScatteringEnabled <;>
  cases hSc : scene.texturesEnabled <;>
  cases hfT : flags.ThicknessTextureEnabled <;>
  cases hfR : flags.RefractionTextureEnabled <;>
  cases hTh : c._thicknessTexture <;>
  cases hRt : c._getRefractionTexture scene <;>
  simp [PBRSubSurfaceConfiguration.prepareDefines, PrepareDefinesForMergedUV,
    h, hR, hT, hS, hSc, hfT, hfR, hTh, hRt]

/-- Witness for C1: on `cfgBoth` (refraction enabled only) with dirty
defines, `SUBSURFACE` is on and the translucency/scattering defines are
off. -/
theorem prepareDefines_subsurface_flags_witness :
    (cfgBoth.prepareDefines flagsOn definesDirty sceneEnv).1.SUBSURFACE
        = (cfgBoth._isRefractionEnabled || cfgBoth._isTranslucencyEnabled
            || cfgBoth._isScatteringEnabled) ∧
    (cfgBoth.prepareDefines flagsOn definesDirty sceneEnv).1.SS_TRANSLUCENCY
        = cfgBoth._isTranslucencyEnabled ∧
    (cfgBoth.prepareDefines flagsOn definesDirty sceneEnv).1.SS_SCATERRING
        = cfgBoth._isScatteringEnabled :=
  prepareDefines_subsurface_flags cfgBoth flagsOn definesDirty sceneEnv rfl

/-- C5: `isReadyForSubMesh` answers false exactly when the defines are
textures-dirty, scene textures are enabled, and either the thickness
texture is present, globally enabled and not ready, or the resolved
refraction texture is present, globally enabled and not ready; in every
other case it answers true (it is a total function — no exceptions). -/
theorem isReadyForSubMesh_false_iff (c : PBRSubSurfaceConfiguration)
    (flags : MaterialFlags) (defines : IMaterialSubSurfaceDefines)
    (scene : Scene) :
    c.isReadyForSubMesh flags defines scene = false ↔
      (defines._areTexturesDirty = true ∧ scene.texturesEnabled = true ∧
        ((∃ t, c._thicknessTexture = some t ∧
            flags.ThicknessTextureEnabled = true ∧
            t.isReadyOrNotBlocking = false) ∨
         (∃ rt, c._getRefractionTexture scene = some rt ∧
            flags.RefractionTextureEnabled = true ∧
            rt.isReadyOrNotBlocking = false))) := by
  rcases hTh : c._thicknessTexture with _ | t <;>
  rcases hRt : c._getRefractionTexture scene with _ | rt <;>
  cases hd : defines._areTexturesDirty <;>
  cases hs : scene.texturesEnabled <;>
  cases hfT : flags.ThicknessTextureEnabled <;>
  cases hfR : flags.RefractionTextureEnabled <;>
  (try cases hbt : t.isReadyOrNotBlocking) <;>
  (try cases hbr : rt.isReadyOrNotBlocking) <;>
  simp_all [PBRSubSurfaceConfiguration.isReadyForSubMesh]

/-- C7: `bindForSubMesh` issues uniform-value updates only when the
frozen-cache gate `!useUbo || !isFrozen || !isSync` is open; when the
buffer uses a UBO, the material is frozen and the buffer is in sync, no
uniform value is written — every emitted event is a texture-sampler
binding. -/
theorem bindForSubMesh_uniform_gate (c : PBRSubSurfaceConfiguration)
    (flags : MaterialFlags) (ub : UniformBufferState) (scene : Scene)
    (isFrozen lodBasedMicrosurface : Bool) :
    (∀ name v, BindEvent.updateUniform name v
        ∈ c.bindForSubMesh flags ub scene isFrozen lodBasedMicrosurface →
      (!ub.useUbo || !isFrozen || !ub.isSync) = true) ∧
    (ub.useUbo = true ∧ isFrozen = true ∧ ub.isSync = true →
      (c.bindForSubMesh flags ub scene isFrozen lodBasedMicrosurface).all
        (fun e => !e.isUniformUpdate) = true) := by
  constructor
  · intro name v hmem
    by_contra hgate
    revert hmem
    rcases hTh : c._thicknessTexture with _ | t <;>
    rcases hRt : c._getRefractionTexture scene with _ | rt <;>
    cases hs : scene.texturesEnabled <;>
    cases hfT : flags.ThicknessTextureEnabled <;>
    cases hfR : flags.RefractionTextureEnabled <;>
    cases lodBasedMicrosurface <;>
    simp_all [PBRSubSurfaceConfiguration.bindForSubMesh]
  · rintro ⟨h1, h2, h3⟩
    rcases hTh : c._thicknessTexture with _ | t <;>
    rcases hRt : c._getRefractionTexture scene with _ | rt <;>
    cases hs : scene.texturesEnabled <;>
    cases hfT : flags.ThicknessTextureEnabled <;>
    cases hfR : flags.RefractionTextureEnabled <;>
    cases lodBasedMicrosurface <;>
    simp_all [PBRSubSurfaceConfiguration.bindForSubMesh,
      BindEvent.isUniformUpdate]

/-- Witness for C7: on `cfgBoth` with a synced UBO and a frozen
material, every event of the bind call is a texture binding. -/
theorem bindForSubMesh_uniform_gate_witness :
    (cfgBoth.bindForSubMesh flagsOn ubFrozenSync sceneEnv true true).all
      (fun e => !e.isUniformUpdate) = true :=
  (bindForSubMesh_uniform_gate cfgBoth flagsOn ubFrozenSync sceneEnv
    true true).2 ⟨rfl, rfl, rfl⟩
